/-
Verification of the tmux-peacock scripts (scripts/peacock_utils.py,
scripts/peacock-sync.py, scripts/pane-title.py, scripts/pane-title-colored.py)
against their natural-language specification.

The Python code is shallowly embedded: JSON values and the Python values that
flow through these scripts are modelled by the inductive `Json`; the state of a
file on disk (as far as these scripts can observe it) by `FileState`; Python
exceptions that can escape the embedded functions by `PyError`.  Each embedded
definition mirrors one Python function of the repository and keeps its name.
-/
import Mathlib

namespace Peacock

/-- Model of a JSON value, doubling as the universe of Python values these
scripts pass around (`null` stands for Python `None`, which is what
`json.load` produces for a file containing `null`). -/
inductive Json where
  | null : Json
  | bool (b : Bool) : Json
  | num (n : Int) : Json
  | str (s : String) : Json
  | arr (xs : List Json) : Json
  | obj (kvs : List (String × Json)) : Json

/-- Python exceptions that can escape the embedded functions. -/
inductive PyError where
  | typeError : PyError
  | attributeError : PyError
  | keyError : PyError
  | notADirectoryError : PyError
deriving DecidableEq, Repr

/-- Python `d.get(k)` / `d[k]` lookup on a dict, modelled on the association
list of an `obj` (first binding wins; a Python dict has unique keys). -/
def dictGet : List (String × Json) → String → Option Json
  | [], _ => none
  | p :: t, k => if p.1 = k then some p.2 else dictGet t k

/-- Python `d[k] = v` on a dict: replace the binding of `k` if present,
otherwise append a new binding. -/
def dictInsert (d : List (String × Json)) (k : String) (v : Json) :
    List (String × Json) :=
  if d.any (fun p => p.1 = k) then
    d.map (fun p => if p.1 = k then (k, v) else p)
  else
    d ++ [(k, v)]

/-- Python truthiness of a value (`if settings:` etc.). -/
def Json.truthy : Json → Bool
  | .null => false
  | .bool b => b
  | .num n => n != 0
  | .str s => s != ""
  | .arr xs => !xs.isEmpty
  | .obj kvs => !kvs.isEmpty

/-- Python `element == key` where `key` is a string: true exactly for an
equal string (a string never compares equal to a number, bool, list, dict or
`None`). -/
def jsonEqStr (x : Json) (key : String) : Bool :=
  match x with
  | .str s => s = key
  | _ => false

/-- Contiguous-sublist test: `listSubstr needle hay` is Python
`needle in hay` for strings (true for the empty needle). -/
def listSubstr (needle : List Char) : List Char → Bool
  | [] => needle.isPrefixOf []
  | c :: t => needle.isPrefixOf (c :: t) || listSubstr needle t

/-- Python `key in cache` where `key` is a string: dict membership tests the
keys, list membership tests the elements, string membership is a substring
test, and every other receiver raises `TypeError`. -/
def pyIn (key : String) : Json → Except PyError Bool
  | .obj kvs => .ok (kvs.any (fun p => p.1 = key))
  | .arr xs => .ok (xs.any (fun x => jsonEqStr x key))
  | .str s => .ok (listSubstr key.toList s.toList)
  | _ => .error .typeError

/-- Python `cache[key]` where `key` is a string: only a dict supports it
(`KeyError` when absent); a list needs an integer index (`TypeError`); all
other receivers raise `TypeError`. -/
def pyIndex (c : Json) (key : String) : Except PyError Json :=
  match c with
  | .obj kvs =>
      match dictGet kvs key with
      | some v => .ok v
      | none => .error .keyError
  | _ => .error .typeError

/-- Python `cache[key] = v` where `key` is a string: only a dict supports item
assignment with a string key; every other receiver raises `TypeError`. -/
def pyStore (c : Json) (key : String) (v : Json) : Except PyError Json :=
  match c with
  | .obj kvs => .ok (.obj (dictInsert kvs key v))
  | _ => .error .typeError

/-- The characters stripped by Python `str.strip()`: those for which
`str.isspace()` holds, i.e. CPython's `Py_UNICODE_ISSPACE` — the characters
of Unicode category Zs (U+0020, U+00A0, U+1680, U+2000-U+200A, U+202F,
U+205F, U+3000), Zl (U+2028) and Zp (U+2029), plus those of bidirectional
class WS, B or S (U+0009-U+000D, U+001C-U+001F, U+0085). -/
def pyIsSpace (c : Char) : Bool :=
  c = ' ' || c = '\t' || c = '\n' || c = '\r' ||
    c = Char.ofNat 0x0B || c = Char.ofNat 0x0C ||
    c = Char.ofNat 0x1C || c = Char.ofNat 0x1D ||
    c = Char.ofNat 0x1E || c = Char.ofNat 0x1F ||
    c = Char.ofNat 0x85 || c = Char.ofNat 0xA0 ||
    c = Char.ofNat 0x1680 ||
    (Char.ofNat 0x2000 ≤ c && c ≤ Char.ofNat 0x200A) ||
    c = Char.ofNat 0x2028 || c = Char.ofNat 0x2029 ||
    c = Char.ofNat 0x202F || c = Char.ofNat 0x205F ||
    c = Char.ofNat 0x3000

/-- Python `s.strip()`: drop leading and trailing whitespace. -/
def pyStrip (s : String) : String :=
  String.mk (((s.toList.dropWhile pyIsSpace).reverse.dropWhile pyIsSpace).reverse)

/-- A hexadecimal digit, as matched by the character class `[0-9a-fA-F]`. -/
def isHexDigit (c : Char) : Bool :=
  ('0' ≤ c && c ≤ '9') || ('a' ≤ c && c ≤ 'f') || ('A' ≤ c && c ≤ 'F')

/-- The candidate capture group of `^#?([0-9a-fA-F]{6})$`: the whole string,
less one leading `#` when present. -/
def hexCore (t : String) : List Char :=
  if t.toList.head? = some '#' then t.toList.tail else t.toList

/-- The regular expression match underlying `validate_hex_color`:
`HEX_COLOR_RE = re.compile(r"^#?([0-9a-fA-F]{6})$")` applied to a whole
string; returns the captured group (the six digits) on success.  The string
matches exactly when, after consuming one optional leading `#`, exactly six
hexadecimal digits remain. -/
def hexMatch (t : String) : Option (List Char) :=
  if (hexCore t).length = 6 && (hexCore t).all isHexDigit then some (hexCore t)
  else none

/-- Specification-side shape predicate, written from the claim's words:
six hexadecimal digits with an optional leading `#` (so either six hex
digits, or seven characters starting with `#` whose tail is hex). -/
def SixHexOptHash (t : String) : Prop :=
  (t.toList.length = 6 ∧ ∀ c ∈ t.toList, isHexDigit c = true) ∨
  (t.toList.length = 7 ∧ t.toList.head? = some '#' ∧
    ∀ c ∈ t.toList.tail, isHexDigit c = true)

/-- `peacock_utils.validate_hex_color` (peacock_utils.py lines 32-47):
rejects non-strings, strips the string, matches `^#?([0-9a-fA-F]{6})$` and
returns the lowercased group with a leading `#`. -/
def validate_hex_color (v : Json) : Option String :=
  match v with
  | .str s =>
      match hexMatch (pyStrip s) with
      | some ds => some ("#" ++ String.mk (ds.map Char.toLower))
      | none => none
  | _ => none

/-!
## File-system model

`FileState` records what these scripts can observe about one path on disk:
whether it exists, whether it is a symlink (with or without an existing
target), its parsed JSON content when it is readable and valid JSON, its
byte size as reported by `stat`, and the two failure modes the code
distinguishes (an `IOError` on open, and content that is not valid JSON).
-/

/-- Observable state of one file path. -/
inductive FileState where
  /-- No file at the path. -/
  | absent : FileState
  /-- Regular file holding valid JSON `content`, of `size` bytes. -/
  | regular (content : Json) (size : Nat) : FileState
  /-- Regular file whose `open` raises `IOError`/`OSError`; `size` bytes. -/
  | unreadableFile (size : Nat) : FileState
  /-- Regular file whose bytes are not valid JSON; `size` bytes. -/
  | notJson (size : Nat) : FileState
  /-- Symlink whose target exists, holds valid JSON `target`, `size` bytes. -/
  | symlinkOk (target : Json) (size : Nat) : FileState
  /-- Symlink whose target does not exist. -/
  | symlinkDangling : FileState

/-- Python `path.is_symlink()`. -/
def FileState.is_symlink : FileState → Bool
  | .symlinkOk _ _ => true
  | .symlinkDangling => true
  | _ => false

/-- Python `path.exists()`: follows symlinks, so a dangling symlink does not
exist. -/
def FileState.pathExists : FileState → Bool
  | .absent => false
  | .symlinkDangling => false
  | _ => true

/-- `MAX_JSON_SIZE = 1024 * 1024` (peacock_utils.py line 23). -/
def MAX_JSON_SIZE : Nat := 1024 * 1024

/-- `peacock_utils.safe_read_json` (lines 193-216): reject symlinks, absent
files and oversized files; `IOError` and `json.JSONDecodeError` are caught
and collapse to `None`.  Note that the parsed value is returned as-is: the
function does not check that it is a JSON object. -/
def safe_read_json (fs : FileState) (max_size : Nat) : Option Json :=
  if fs.is_symlink then none
  else
    match fs with
    | .absent => none
    | .regular c sz => if sz > max_size then none else some c
    | .unreadableFile _ => none
    | .notJson _ => none
    | _ => none

/-- `peacock_utils.load_color_cache` (lines 259-262):
`cache if cache is not None else {}` — a file containing JSON `null` parses
to Python `None` and therefore also yields `{}`; any other parsed value
(object or not) is returned unchanged. -/
def load_color_cache (fs : FileState) : Json :=
  match safe_read_json fs MAX_JSON_SIZE with
  | none => .obj []
  | some .null => .obj []
  | some j => j

/-- `peacock_utils.safe_write_json` (lines 219-256).  The guard is
`path.exists() and path.is_symlink()`; when it passes, the data is written to
a fresh temporary file and atomically renamed over the destination, which
therefore becomes a regular file holding the data.  `osOk` stands for the
success of the OS operations (mkdir/mkstemp/chmod/rename); on failure the
temporary file is removed and the destination is untouched.  `sz` is the byte
length of `json.dump(data, indent=2)`, determined by the environment. -/
def safe_write_json (dest : FileState) (data : Json) (osOk : Bool) (sz : Nat) :
    Bool × FileState :=
  if dest.pathExists && dest.is_symlink then (false, dest)
  else if osOk then (true, .regular data sz)
  else (false, dest)

/-!
## Path string utilities
-/

/-- Split a character list at every `'/'` (the semantics of Python
`s.split("/")`: splitting the empty string gives `[""]`). -/
def splitOnSlash : List Char → List (List Char)
  | [] => [[]]
  | c :: t =>
      let r := splitOnSlash t
      if c = '/' then [] :: r
      else
        match r with
        | h :: t2 => (c :: h) :: t2
        | [] => [[c]]

/-- The fields of Python `p.split("/")` as strings. -/
def rawComponents (p : String) : List String :=
  (splitOnSlash p.toList).map (fun g => String.mk g)

/-- The non-anchor parts of a POSIX path as kept by `pathlib`: the
slash-separated components with empty and `"."` components dropped. -/
def pathComponents (p : String) : List String :=
  (rawComponents p).filter (fun c => c ≠ "" && c ≠ ".")

/-- Python `pathlib.PurePosixPath(p).name`: the final path component, or `""`
when there is none (root, `"."`, `""`). -/
def pyPathName (p : String) : String :=
  match (pathComponents p).getLast? with
  | some c => c
  | none => ""

/-- The parts of a POSIX path as compared by `PurePath.relative_to`: the
anchor (`"/"` for an absolute path) followed by the remaining components. -/
def pathParts (p : String) : List String :=
  if p.toList.head? = some '/' then "/" :: pathComponents p
  else pathComponents p

/-- Join strings with `"/"` separators. -/
def joinWithSlash : List String → String
  | [] => ""
  | [x] => x
  | x :: xs => x ++ "/" ++ joinWithSlash xs

/-- Python `PurePosixPath(child).relative_to(root)`: `none` models the
`ValueError` raised when `root`'s parts are not a prefix of `child`'s parts;
otherwise the remaining parts joined by `/`, or `"."` when the paths are
equal. -/
def pyRelativeTo (child root : String) : Option String :=
  let c := pathParts child
  let r := pathParts root
  if r.isPrefixOf c then
    match c.drop r.length with
    | [] => some "."
    | rest => some (joinWithSlash rest)
  else none

/-- Python `s.rstrip(chars)`: remove trailing characters drawn from the set
`chars` (this is the character-set semantics of `str.rstrip`, not suffix
removal). -/
def pyRstrip (s : String) (chars : List Char) : String :=
  String.mk ((s.toList.reverse.dropWhile (fun c => chars.contains c)).reverse)

/-- Python `s.split("/")[-1]` (`str.split` never returns an empty list, so
`[-1]` cannot fail; the `""` default is unreachable). -/
def lastSlashSegment (s : String) : String :=
  ((rawComponents s).getLast?).getD ""

/-- `peacock_utils.normalize_path` (lines 552-557) and the identical
`normalize_path` of pane-title.py / pane-title-colored.py:
`directory.replace(home, "~", 1)` guarded by `directory.startswith(home)`,
i.e. replace the leading occurrence of the home prefix by `~`. -/
def normalize_path (home directory : String) : String :=
  if home.toList.isPrefixOf directory.toList then
    "~" ++ String.mk (directory.toList.drop home.toList.length)
  else directory

/-!
## Repository-name and worktree-info derivation

`get_repo_name` (peacock_utils.py lines 420-458) and the equivalent inline
logic of `get_worktree_info` in pane-title.py lines 55-92 and
pane-title-colored.py lines 136-173.  The external `git` invocations are
passed in as oracle values: `gitIsFile` is the result of the
`(git_root/".git").exists() and is_file()` worktree test, and `remoteUrl` is
the stripped stdout of `git remote get-url origin` when that command exits
with status 0 (`none` when it fails or raises, which the code treats
identically). -/

/-- The URL-to-name step of `get_repo_name`:
`url.rstrip("/").rstrip(".git").split("/")[-1]`. -/
def repoNameOfUrl (url : String) : String :=
  lastSlashSegment (pyRstrip (pyRstrip url ['/']) ['.', 'g', 'i', 't'])

/-- `peacock_utils.get_repo_name` (lines 420-458), with the git queries as
oracle inputs and `rootName` standing for `Path(git_root).name`. -/
def get_repo_name (gitIsFile : Bool) (remoteUrl : Option String)
    (rootName : String) : String :=
  if gitIsFile then rootName
  else
    match remoteUrl with
    | some url => repoNameOfUrl url
    | none => rootName

/-- The relative-subpath truncation step of `get_worktree_info`
(peacock_utils.py lines 487-489; pane-title.py lines 87-89):
`if len(rel_str) > 20: rel_str = "..." + rel_str[-17:]`. -/
def truncate_rel (s : String) : String :=
  if s.length > 20 then "..." ++ String.mk (s.toList.drop (s.toList.length - 17))
  else s

/-- `get_worktree_info` (peacock_utils.py lines 461-492; pane-title.py lines
55-92): the repo name together with the truncated relative subpath, `none`
when `directory` equals the root or `relative_to` raises `ValueError`. -/
def get_worktree_info (directory gitRoot : String) (gitIsFile : Bool)
    (remoteUrl : Option String) : String × Option String :=
  let repoName := get_repo_name gitIsFile remoteUrl (pyPathName gitRoot)
  match pyRelativeTo directory gitRoot with
  | none => (repoName, none)
  | some r => if r = "." then (repoName, none) else (repoName, some (truncate_rel r))

/-!
## Color resolution (`get_peacock_color`)

Two distinct implementations exist in the repository: the validated one in
peacock_utils.py (lines 500-544) and the older unvalidated copy kept inline
in pane-title-colored.py (lines 184-215).  Both are embedded.

The environment visible to one invocation: the result of the
`git rev-parse --show-toplevel` query for the starting directory, the state
of `<target>/.vscode/settings.json`, and the state of the cache file.  The
color derivation `generate_color_for_name` (MD5 seed, golden-ratio hue,
HSL→RGB in floating point) is passed in as an explicit function parameter
`gen`: no claim below depends on the value it produces, only on when it is
called and how its result flows, and its float arithmetic is outside this
embedding. -/

/-- Environment of one `get_peacock_color` invocation. -/
structure Env where
  gitRoot : Option String
  settingsFile : FileState
  cacheFile : FileState

/-- `color_key = Path(target_directory).name or "root"`
(peacock_utils.py line 530): Python `or` substitutes `"root"` for the falsy
empty name. -/
def colorKeyOf (target : String) : String :=
  match pyPathName target with
  | "" => "root"
  | n => n

/-- The settings branch of `peacock_utils.get_peacock_color` (lines
519-527): read the settings with `safe_read_json`; when the result is truthy
take `settings.get("peacock.color")` (an `AttributeError` if the parsed JSON
is truthy but not an object), and validate it when it is truthy itself.
Returns the validated color, or `none` to fall through to the cache. -/
def settingsColor (fs : FileState) : Except PyError (Option String) :=
  match safe_read_json fs MAX_JSON_SIZE with
  | none => .ok none
  | some j =>
      if j.truthy then
        match j with
        | .obj kvs =>
            match dictGet kvs "peacock.color" with
            | none => .ok none
            | some v => if v.truthy then .ok (validate_hex_color v) else .ok none
        | _ => .error .attributeError
      else .ok none

/-- The generate-and-store tail of `peacock_utils.get_peacock_color` (lines
539-544): `generated_color = generate_color_for_name(color_key);
cache[color_key] = generated_color; save_color_cache(cache); return
generated_color`.  The dict passed to `save_color_cache` is returned as the
write effect; item assignment on a non-dict cache raises `TypeError`. -/
def generateAndStore (gen : String → String) (ck : String) (cache : Json) :
    Except PyError (String × Option Json) :=
  match pyStore cache ck (.str (gen ck)) with
  | .error e => .error e
  | .ok cache2 => .ok (gen ck, some cache2)

/-- The cache branch of `peacock_utils.get_peacock_color` (lines 529-544):
`if color_key in cache:` then validate `cache[color_key]`, returning it on
success; an invalid or absent entry falls through to generate-and-store. -/
def cacheLookupTail (gen : String → String) (ck : String) (cache : Json) :
    Except PyError (String × Option Json) :=
  match pyIn ck cache with
  | .error e => .error e
  | .ok true =>
      match pyIndex cache ck with
      | .error e => .error e
      | .ok v =>
          match validate_hex_color v with
          | some c => .ok (c, none)
          | none => generateAndStore gen ck cache
  | .ok false => generateAndStore gen ck cache

/-- `peacock_utils.get_peacock_color` (lines 500-544).  Returns the color
together with the dict passed to `save_color_cache` (`none` when no write is
attempted); `gen` is `generate_color_for_name`. -/
def get_peacock_color (directory : String) (gen : String → String) (env : Env) :
    Except PyError (String × Option Json) :=
  match settingsColor env.settingsFile with
  | .error e => .error e
  | .ok (some c) => .ok (c, none)
  | .ok none =>
      cacheLookupTail gen (colorKeyOf (env.gitRoot.getD directory))
        (load_color_cache env.cacheFile)

/-- The `settings.get("peacock.color")` step of pane-title-colored.py
(line 198): raises `AttributeError` when the parsed settings JSON is not an
object (only `json.JSONDecodeError` and `IOError` are caught there). -/
def ptcGetColorField (c : Json) : Except PyError (Option Json) :=
  match c with
  | .obj kvs => .ok (dictGet kvs "peacock.color")
  | _ => .error .attributeError

/-- The settings read of pane-title-colored.py `get_peacock_color` (lines
192-200): `if vscode_settings.exists():` (follows symlinks) then a plain
`open`/`json.load` with only `JSONDecodeError` and `IOError` caught — no
symlink rejection, no size bound. -/
def ptcSettingsColor (fs : FileState) : Except PyError (Option Json) :=
  match fs with
  | .absent => .ok none
  | .symlinkDangling => .ok none
  | .unreadableFile _ => .ok none
  | .notJson _ => .ok none
  | .regular c _ => ptcGetColorField c
  | .symlinkOk t _ => ptcGetColorField t

/-- `load_color_cache` of pane-title-colored.py (lines 71-80): plain
`exists()` guard and `open`/`json.load`, returning whatever parses (including
`null` → Python `None`), `{}` only on a missing file or a caught error. -/
def ptc_load_color_cache (fs : FileState) : Json :=
  match fs with
  | .regular c _ => c
  | .symlinkOk t _ => t
  | _ => .obj []

/-- The cache tail of pane-title-colored.py `get_peacock_color` (lines
205-215): a cache hit is returned raw, without validation; otherwise generate,
store under the key and return. -/
def ptcCacheTail (gen : String → String) (ck : String) (cache : Json) :
    Except PyError (Json × Option Json) :=
  match pyIn ck cache with
  | .error e => .error e
  | .ok true =>
      match pyIndex cache ck with
      | .error e => .error e
      | .ok v => .ok (v, none)
  | .ok false =>
      match pyStore cache ck (.str (gen ck)) with
      | .error e => .error e
      | .ok cache2 => .ok (.str (gen ck), some cache2)

/-- `get_peacock_color` of pane-title-colored.py (lines 184-215): returns the
raw `peacock.color` settings value whenever it is truthy — no validation and
no lowercase normalization — else falls back to the cache; the color key is
`Path(target_directory).name` with no `or "root"` fallback. -/
def ptc_get_peacock_color (directory : String) (gen : String → String)
    (env : Env) : Except PyError (Json × Option Json) :=
  match ptcSettingsColor env.settingsFile with
  | .error e => .error e
  | .ok (some v) =>
      if v.truthy then .ok (v, none)
      else
        ptcCacheTail gen (pyPathName (env.gitRoot.getD directory))
          (ptc_load_color_cache env.cacheFile)
  | .ok none =>
      ptcCacheTail gen (pyPathName (env.gitRoot.getD directory))
        (ptc_load_color_cache env.cacheFile)

/-!
## Entry points
-/

/-- What a positional path argument names on disk. -/
inductive PathKind where
  | isDir : PathKind
  | isFile : PathKind
  | missing : PathKind
deriving DecidableEq, Repr

/-- `get_git_toplevel` of pane-title.py (lines 12-25) / pane-title-colored.py
(lines 94-107): `subprocess.run(..., cwd=directory)` with only
`subprocess.SubprocessError` and `FileNotFoundError` caught.  A missing
working directory raises `FileNotFoundError` (caught, → `None`); an existing
non-directory raises `NotADirectoryError`, which is not caught and
propagates.  `gitResult` is the stripped stdout when the command runs and
exits 0, `none` when it exits non-zero. -/
def pt_get_git_toplevel (kind : PathKind) (gitResult : Option String) :
    Except PyError (Option String) :=
  match kind with
  | .missing => .ok none
  | .isFile => .error .notADirectoryError
  | .isDir => .ok gitResult

/-- Environment of one pane-title.py invocation for a given directory
argument: what the path names, and the outcomes of the git queries. -/
structure TitleEnv where
  dirKind : PathKind
  gitRoot : Option String
  branch : Option String
  gitIsFile : Bool
  remoteUrl : Option String

/-- `main` of pane-title.py (lines 103-125), as the label it prints for
`directory` (which is `sys.argv[1]` when given, else `os.getcwd()` — note the
source applies no existence check and no fallback to the cwd).  Builds
`repo@branch:subdir` inside a repository, else the home-normalized basename. -/
def pane_title_label (home directory : String) (env : TitleEnv) :
    Except PyError String :=
  match pt_get_git_toplevel env.dirKind env.gitRoot with
  | .error e => .error e
  | .ok (some root) =>
      let info := get_worktree_info directory root env.gitIsFile env.remoteUrl
      let t1 :=
        match env.branch with
        | some b => if b ≠ "" then info.1 ++ "@" ++ b else info.1
        | none => info.1
      let t2 :=
        match info.2 with
        | some s => if s ≠ "" then t1 ++ ":" ++ s else t1
        | none => t1
      .ok t2
  | .ok none =>
      let np := normalize_path home directory
      if np = "~" then .ok "~"
      else
        .ok (match pyPathName np with
             | "" => np
             | n => n)

/-!
## The sync entry point's lock handling

`main` of peacock-sync.py (lines 194-215) does **not** use
`peacock_utils.FileLock`: it implements the modification-time staleness
heuristic directly on the lock path (`if lock_file.exists(): if
(lock_file.st_mtime + 5) < getmtime("/tmp"): lock_file.unlink() else:
sys.exit(0)` followed by `lock_file.touch()`), then runs the styling update.
-/

/-- Environment of one peacock-sync.py invocation: whether `$TMUX` is set,
whether the lock file exists, and the two modification times the code
compares. -/
structure SyncEnv where
  tmuxSet : Bool
  lockFileExists : Bool
  lockMtime : Int
  tmpMtime : Int
deriving DecidableEq, Repr

/-- Observable outcome of the lock handling in peacock-sync.py `main`. -/
structure SyncLockResult where
  /-- The existing lock file was unlinked in the staleness branch. -/
  deletedStaleLock : Bool
  /-- Execution reached the styling commands. -/
  styled : Bool
deriving DecidableEq, Repr

/-- The lock-handling control flow of peacock-sync.py `main` (lines
194-215), transcribed branch for branch. -/
def sync_main_lock (env : SyncEnv) : SyncLockResult :=
  if !env.tmuxSet then ⟨false, false⟩
  else if env.lockFileExists then
    if env.lockMtime + 5 < env.tmpMtime then ⟨true, true⟩
    else ⟨false, false⟩
  else ⟨false, true⟩

/-- `peacock_utils.FileLock.acquire` (lines 290-316): one non-blocking
`fcntl.flock(LOCK_EX | LOCK_NB)` attempt, returning `false` immediately when
another process holds the lock.  Its outcome depends only on whether the lock
is currently held — no file modification time is consulted. -/
def FileLock.acquire (heldByAnother : Bool) : Bool :=
  !heldByAnother

/-!
## Helper lemmas about dict operations
-/

theorem dictGet_map_update_self (d : List (String × Json)) (k : String) (v : Json)
    (h : d.any (fun p => p.1 = k) = true) :
    dictGet (d.map (fun p => if p.1 = k then (k, v) else p)) k = some v := by
  induction d with
  | nil => simp at h
  | cons p t ih =>
      simp only [List.any_cons, Bool.or_eq_true, decide_eq_true_eq] at h
      by_cases hp : p.1 = k
      · simp [dictGet, hp]
      · have ht := h.resolve_left hp
        simp [dictGet, hp, ih ht]

theorem dictGet_append_single_self (d : List (String × Json)) (k : String) (v : Json)
    (h : d.any (fun p => p.1 = k) = false) :
    dictGet (d ++ [(k, v)]) k = some v := by
  induction d with
  | nil => simp [dictGet]
  | cons p t ih =>
      simp only [List.any_cons, Bool.or_eq_false_iff, decide_eq_false_iff_not] at h
      simp [dictGet, h.1, ih h.2]

theorem dictGet_dictInsert_self (d : List (String × Json)) (k : String) (v : Json) :
    dictGet (dictInsert d k v) k = some v := by
  unfold dictInsert
  by_cases h : d.any (fun p => p.1 = k) = true
  · rw [if_pos h]
    exact dictGet_map_update_self d k v h
  · rw [if_neg h]
    exact dictGet_append_single_self d k v (Bool.eq_false_iff.mpr h)

theorem dictGet_map_update_ne (d : List (String × Json)) (k k2 : String) (v : Json)
    (hne : k2 ≠ k) :
    dictGet (d.map (fun p => if p.1 = k then (k, v) else p)) k2 = dictGet d k2 := by
  induction d with
  | nil => rfl
  | cons p t ih =>
      by_cases hp : p.1 = k
      · have h1 : ¬ (k = k2) := fun hk => hne hk.symm
        have h2 : ¬ (p.1 = k2) := fun hk => h1 (hp ▸ hk)
        simp [dictGet, hp, h1, h2, ih]
      · by_cases hp2 : p.1 = k2
        · simp only [List.map_cons, dictGet, if_neg hp, if_pos hp2]
        · simp [dictGet, hp, hp2, ih]

theorem dictGet_append_single_ne (d : List (String × Json)) (k k2 : String) (v : Json)
    (hne : k2 ≠ k) : dictGet (d ++ [(k, v)]) k2 = dictGet d k2 := by
  induction d with
  | nil =>
      have h1 : ¬ (k = k2) := fun hk => hne hk.symm
      simp [dictGet, h1]
  | cons p t ih =>
      by_cases hp2 : p.1 = k2
      · simp [dictGet, hp2]
      · simp [dictGet, hp2, ih]

theorem dictGet_dictInsert_ne (d : List (String × Json)) (k k2 : String) (v : Json)
    (hne : k2 ≠ k) : dictGet (dictInsert d k v) k2 = dictGet d k2 := by
  unfold dictInsert
  by_cases h : d.any (fun p => p.1 = k) = true
  · rw [if_pos h]
    exact dictGet_map_update_ne d k k2 v hne
  · rw [if_neg h]
    exact dictGet_append_single_ne d k k2 v hne

theorem any_of_dictGet_some (d : List (String × Json)) (k : String) (j : Json)
    (h : dictGet d k = some j) : d.any (fun p => p.1 = k) = true := by
  induction d with
  | nil => simp [dictGet] at h
  | cons p t ih =>
      by_cases hp : p.1 = k
      · simp [hp]
      · rw [dictGet, if_neg hp] at h
        simp only [List.any_cons, Bool.or_eq_true, decide_eq_true_eq]
        exact Or.inr (ih h)

/-- Evaluating the generate-and-store tail on a dict-shaped cache. -/
theorem generateAndStore_obj (gen : String → String) (ck : String)
    (d : List (String × Json)) :
    generateAndStore gen ck (Json.obj d)
      = .ok (gen ck, some (Json.obj (dictInsert d ck (Json.str (gen ck))))) := rfl

/-- A successful regex match returns exactly the candidate capture group. -/
theorem hexMatch_eq_some (t : String) (ds : List Char) (h : hexMatch t = some ds) :
    ds = hexCore t := by
  unfold hexMatch at h
  split at h
  · exact (Option.some.injEq _ _ ▸ h).symm
  · exact Option.noConfusion h

/-- A list whose optional head is `some a` is a cons with head `a`. -/
theorem head?_eq_some_cons {α : Type} (l : List α) (a : α) (h : l.head? = some a) :
    ∃ t, l = a :: t := by
  cases l with
  | nil => exact Option.noConfusion h
  | cons x t =>
      have h2 : some x = some a := h
      exact ⟨t, by rw [Option.some.inj h2]⟩

/-- The regex accepts exactly the strings of the claimed shape. -/
theorem hexMatch_isSome_iff (t : String) :
    (hexMatch t).isSome = true ↔ SixHexOptHash t := by
  unfold hexMatch
  constructor
  · intro h
    by_cases hcond : ((hexCore t).length = 6 && (hexCore t).all isHexDigit) = true
    · simp only [Bool.and_eq_true, decide_eq_true_eq, List.all_eq_true] at hcond
      obtain ⟨hlen, hall⟩ := hcond
      unfold hexCore at hlen hall
      by_cases hh : t.toList.head? = some '#'
      · right
        rw [if_pos hh] at hlen hall
        obtain ⟨rest, ht⟩ := head?_eq_some_cons _ _ hh
        rw [ht] at hlen hall ⊢
        simp only [List.tail_cons] at hlen hall
        exact ⟨by simp [hlen], rfl, by simpa using hall⟩
      · left
        rw [if_neg hh] at hlen hall
        exact ⟨hlen, hall⟩
    · rw [if_neg hcond] at h
      exact Bool.noConfusion h
  · intro h
    have hcond : ((hexCore t).length = 6 && (hexCore t).all isHexDigit) = true := by
      simp only [Bool.and_eq_true, decide_eq_true_eq, List.all_eq_true]
      rcases h with ⟨hlen, hall⟩ | ⟨hlen, hh, hall⟩
      · have hh : ¬ t.toList.head? = some '#' := by
          intro hh
          obtain ⟨rest, ht⟩ := head?_eq_some_cons _ _ hh
          have hmem := hall '#' (by rw [ht]; simp)
          exact absurd hmem (by decide)
        unfold hexCore
        rw [if_neg hh]
        exact ⟨hlen, hall⟩
      · unfold hexCore
        rw [if_pos hh]
        obtain ⟨rest, ht⟩ := head?_eq_some_cons _ _ hh
        rw [ht] at hlen ⊢
        simp only [List.length_cons] at hlen
        simp only [List.tail_cons]
        rw [ht] at hall
        simp only [List.tail_cons] at hall
        exact ⟨by omega, hall⟩
    rw [if_pos hcond]
    rfl

/-- The acceptance set of `validate_hex_color` on strings is that of the
underlying regex applied after `strip()`. -/
theorem validate_isSome_iff (s : String) :
    (validate_hex_color (Json.str s)).isSome = true ↔ SixHexOptHash (pyStrip s) := by
  rw [← hexMatch_isSome_iff]
  unfold validate_hex_color
  cases h : hexMatch (pyStrip s) <;> simp [h]

/-!
## Claims
-/

/-- C1 (code_bug): the sync entry point (`main` of peacock-sync.py, lines
194-215) does not serialize through one non-blocking `FileLock.acquire`
attempt: its behavior depends on a modification-time comparison between the
lock file and `/tmp` — at lock mtime 100 and `/tmp` mtime 200 it deletes the
lock file and proceeds to issue styling commands, while at `/tmp` mtime 103
the very same held-lock state makes it exit — exactly the mtime-based
staleness heuristic (with deletion) that the claim says never happens.
`FileLock.acquire`, the mechanism the claim describes, would return a
constant answer for a fixed holder state, independent of any mtime. -/
theorem c1_sync_lock_uses_mtime_heuristic :
    sync_main_lock ⟨true, true, 100, 200⟩
        = { deletedStaleLock := true, styled := true } ∧
    sync_main_lock ⟨true, true, 100, 103⟩
        = { deletedStaleLock := false, styled := false } ∧
    sync_main_lock ⟨true, true, 100, 200⟩ ≠ sync_main_lock ⟨true, true, 100, 103⟩ ∧
    FileLock.acquire true = false ∧ FileLock.acquire false = true := by
  refine ⟨rfl, rfl, ?_, rfl, rfl⟩
  decide

/-- C2 (code_bug): with a settings file declaring
`"peacock.color": "#1E90FF"`, the peacock_utils implementation returns the
validated, lowercased `"#1e90ff"` with no cache write, but the
pane-title-colored.py implementation cited by the same claim returns the raw
`"#1E90FF"` unvalidated and not normalized. -/
theorem c2_settings_color_not_normalized :
    get_peacock_color "/p/proj" (fun _ => "#222222")
        ⟨none, .regular (.obj [("peacock.color", .str "#1E90FF")]) 40, .absent⟩
      = .ok ("#1e90ff", none) ∧
    ptc_get_peacock_color "/p/proj" (fun _ => "#222222")
        ⟨none, .regular (.obj [("peacock.color", .str "#1E90FF")]) 40, .absent⟩
      = .ok (.str "#1E90FF", none) ∧
    ("#1E90FF" : String) ≠ "#1e90ff" := by
  refine ⟨rfl, rfl, ?_⟩
  decide

/-- C3 (code_bug): a cache file holding the valid JSON array `[]` is not read
as an empty mapping — `load_color_cache` returns the array itself — and
`get_peacock_color` then raises `TypeError` at `cache[color_key] = ...`
instead of completing. -/
theorem c3_nonobject_cache_raises_typeerror :
    load_color_cache (FileState.regular (Json.arr []) 2) = Json.arr [] ∧
    Json.arr [] ≠ Json.obj [] ∧
    get_peacock_color "/p/proj" (fun _ => "#aabbcc")
        ⟨none, .absent, .regular (.arr []) 2⟩
      = .error .typeError := by
  refine ⟨rfl, ?_, rfl⟩
  intro h
  exact Json.noConfusion h

/-- C4 (code_bug): `url.rstrip(".git")` strips trailing characters drawn from
the set `{'.', 'g', 'i', 't'}`, not the suffix `".git"`: a remote URL ending
in `/config.git` yields `"conf"` (claim says `"config"`) and one ending in
`/mygit` yields `"my"` (claim says `"mygit"`). -/
theorem c4_rstrip_git_overstrips :
    get_repo_name false (some "https://example.com/config.git") "fallback" = "conf" ∧
    ("conf" : String) ≠ "config" ∧
    get_repo_name false (some "https://example.com/mygit") "fallback" = "my" ∧
    ("my" : String) ≠ "mygit" := by
  refine ⟨by decide, by decide, by decide, by decide⟩

/-- C7 counterexample: for a dangling symlink destination the guard
`path.exists() and path.is_symlink()` does not fire (`exists()` follows the
link), so `safe_write_json` succeeds — returning `true`, not failure — and
the atomic rename replaces the symlink with a regular file, changing the
path's link status. -/
theorem c7_dangling_symlink_cex :
    safe_write_json FileState.symlinkDangling (Json.obj []) true 10
      = (true, FileState.regular (Json.obj []) 10) ∧
    FileState.symlinkDangling.is_symlink = true ∧
    (FileState.regular (Json.obj []) 10).is_symlink = false := by
  exact ⟨rfl, rfl, rfl⟩

/-- C7 (corrected): `safe_write_json` refuses exactly the symlinks whose
target exists (returning failure and leaving the destination unchanged); a
dangling symlink is not refused — the write succeeds and the rename replaces
the link itself with a regular file holding the data (no write-through to a
target occurs). -/
theorem c7_symlink_write_refusal_amended :
    (∀ (t : Json) (s : Nat) (data : Json) (osOk : Bool) (sz : Nat),
        safe_write_json (FileState.symlinkOk t s) data osOk sz
          = (false, FileState.symlinkOk t s)) ∧
    (∀ (data : Json) (sz : Nat),
        safe_write_json FileState.symlinkDangling data true sz
          = (true, FileState.regular data sz)) :=
  ⟨fun _ _ _ _ _ => rfl, fun _ _ => rfl⟩

/-- C6 counterexample: `validate_hex_color` calls `.strip()` before matching,
so the whitespace-surrounded string `" #AABBCC "` — which the claim says is
rejected — is accepted and normalized to `"#aabbcc"`. -/
theorem c6_whitespace_accepted_cex :
    validate_hex_color (Json.str " #AABBCC ") = some "#aabbcc" ∧
    validate_hex_color (Json.str " #AABBCC ") ≠ none := by
  refine ⟨by decide, by decide⟩

/-- C6 (corrected): `validate_hex_color` rejects every non-string; on strings
it accepts exactly those whose `strip()` consists of six hexadecimal digits
with an optional leading `#` (so surrounding whitespace — including Unicode
whitespace such as U+00A0 — is tolerated, not rejected), returning the
lowercase six digits prefixed with `#`; the claim's listed rejects `"red"`,
`"#fff"`, `"#gggggg"`, `""` are indeed rejected, `"#1E90FF"` normalizes to
`"#1e90ff"`, and a color wrapped in no-break spaces is accepted. -/
theorem c6_validate_hex_color_amended :
    (∀ n : Int, validate_hex_color (Json.num n) = none) ∧
    (∀ b : Bool, validate_hex_color (Json.bool b) = none) ∧
    validate_hex_color Json.null = none ∧
    (∀ xs, validate_hex_color (Json.arr xs) = none) ∧
    (∀ kvs, validate_hex_color (Json.obj kvs) = none) ∧
    (∀ s, (validate_hex_color (Json.str s)).isSome = true ↔ SixHexOptHash (pyStrip s)) ∧
    (∀ s r, validate_hex_color (Json.str s) = some r →
        r = "#" ++ String.mk ((hexCore (pyStrip s)).map Char.toLower)) ∧
    validate_hex_color (Json.str "red") = none ∧
    validate_hex_color (Json.str "#fff") = none ∧
    validate_hex_color (Json.str "#gggggg") = none ∧
    validate_hex_color (Json.str "") = none ∧
    validate_hex_color (Json.str "#1E90FF") = some "#1e90ff" ∧
    validate_hex_color (Json.str "\u00A0#AABBCC\u00A0") = some "#aabbcc" := by
  refine ⟨fun _ => rfl, fun _ => rfl, rfl, fun _ => rfl, fun _ => rfl,
    validate_isSome_iff, ?_, by decide, by decide, by decide, by decide, by decide,
    by decide⟩
  intro s r h
  have h2 : (match hexMatch (pyStrip s) with
      | some ds => some ("#" ++ String.mk (ds.map Char.toLower))
      | none => none) = some r := h
  cases hm : hexMatch (pyStrip s) with
  | none => rw [hm] at h2; exact Option.noConfusion h2
  | some ds =>
      rw [hm] at h2
      have hds : ds = hexCore (pyStrip s) := hexMatch_eq_some _ _ hm
      have hr : r = "#" ++ String.mk (ds.map Char.toLower) := (Option.some.inj h2).symm
      rw [hr, hds]

/-- C6 witness: the amended characterization applied at the concrete input
`" #AABBCC "` with result `"#aabbcc"`. -/
theorem c6_validate_hex_color_witness :
    "#aabbcc" = "#" ++ String.mk ((hexCore (pyStrip " #AABBCC ")).map Char.toLower) :=
  c6_validate_hex_color_amended.2.2.2.2.2.2.1 " #AABBCC " "#aabbcc" (by decide)

/-- C8 counterexample: the 33-character relative subpath of the claim
truncates to `"..."` plus its last **17** characters, which is
`"...eeply/nested/file"`, not the claimed `"...deeply/nested/file"` (whose
tail after the ellipsis is 18 characters long). -/
theorem c8_truncation_example_cex :
    truncate_rel "src/components/deeply/nested/file" = "...eeply/nested/file" ∧
    truncate_rel "src/components/deeply/nested/file" ≠ "...deeply/nested/file" := by
  refine ⟨by decide, by decide⟩

/-- C8 (corrected): the general rule holds as claimed — a relative subpath
longer than 20 characters becomes an ellipsis marker followed by its last 17
characters, and shorter ones are returned unchanged — but the spec's worked
example is off by one: the last 17 characters of
`"src/components/deeply/nested/file"` are `"eeply/nested/file"`, so the
result is `"...eeply/nested/file"`. -/
theorem c8_truncation_amended (s : String) :
    (20 < s.length →
      ∃ pre suf : List Char, s.toList = pre ++ suf ∧ suf.length = 17 ∧
        truncate_rel s = "..." ++ String.mk suf) ∧
    (s.length ≤ 20 → truncate_rel s = s) := by
  constructor
  · intro h
    have hs : s.length = s.toList.length := rfl
    refine ⟨s.toList.take (s.toList.length - 17), s.toList.drop (s.toList.length - 17),
      (List.take_append_drop _ _).symm, ?_, ?_⟩
    · rw [List.length_drop]
      omega
    · unfold truncate_rel
      rw [if_pos h]
  · intro h
    unfold truncate_rel
    rw [if_neg (by omega)]

/-- C8 witness: the amended rule applied at the claim's concrete long path
and at a short path. -/
theorem c8_truncation_witness :
    20 < ("src/components/deeply/nested/file" : String).length ∧
    (∃ pre suf : List Char,
        ("src/components/deeply/nested/file" : String).toList = pre ++ suf ∧
        suf.length = 17 ∧
        truncate_rel "src/components/deeply/nested/file" = "..." ++ String.mk suf) ∧
    truncate_rel "src" = "src" :=
  ⟨by decide, (c8_truncation_amended "src/components/deeply/nested/file").1 (by decide),
    (c8_truncation_amended "src").2 (by decide)⟩

/-- C5 (confirmed): cache round-trip.  For any cache mapping `d` with string
keys, key `k` and valid hex color `v`, when the destination is not a symlink
and the serialized size is within the 1MB bound, `safe_write_json` of the
extended mapping succeeds and a following `safe_read_json` returns a mapping
binding `k` to `v`. -/
theorem c5_cache_roundtrip (d : List (String × Json)) (k v : String)
    (dest : FileState) (sz : Nat)
    (hsym : dest.is_symlink = false)
    (hsz : sz ≤ MAX_JSON_SIZE)
    (_hv : validate_hex_color (Json.str v) = some v) :
    (safe_write_json dest (Json.obj (dictInsert d k (Json.str v))) true sz).1 = true ∧
    safe_read_json (safe_write_json dest (Json.obj (dictInsert d k (Json.str v))) true sz).2
        MAX_JSON_SIZE
      = some (Json.obj (dictInsert d k (Json.str v))) ∧
    dictGet (dictInsert d k (Json.str v)) k = some (Json.str v) := by
  have hw : safe_write_json dest (Json.obj (dictInsert d k (Json.str v))) true sz
      = (true, FileState.regular (Json.obj (dictInsert d k (Json.str v))) sz) := by
    unfold safe_write_json
    rw [hsym]
    simp
  refine ⟨by rw [hw], ?_, dictGet_dictInsert_self d k (Json.str v)⟩
  rw [hw]
  unfold safe_read_json
  simp only [FileState.is_symlink, Bool.false_eq_true, if_false]
  rw [if_neg (by omega)]

/-- C5 witness: the round-trip at a concrete mapping, key, color and size. -/
theorem c5_cache_roundtrip_witness :
    FileState.absent.is_symlink = false ∧ 50 ≤ MAX_JSON_SIZE ∧
    validate_hex_color (Json.str "#abcdef") = some "#abcdef" ∧
    safe_read_json
        (safe_write_json FileState.absent
          (Json.obj (dictInsert [("a", Json.str "#112233")] "proj" (Json.str "#abcdef")))
          true 50).2 MAX_JSON_SIZE
      = some (Json.obj (dictInsert [("a", Json.str "#112233")] "proj" (Json.str "#abcdef"))) ∧
    dictGet (dictInsert [("a", Json.str "#112233")] "proj" (Json.str "#abcdef")) "proj"
      = some (Json.str "#abcdef") := by
  have h := c5_cache_roundtrip [("a", Json.str "#112233")] "proj" "#abcdef"
    FileState.absent 50 rfl (by decide) (by decide)
  exact ⟨rfl, by decide, by decide, h.2.1, h.2.2⟩

/-- C9 counterexample: pane-title.py called on the nonexistent path
`/nonexistent/foo` prints `"foo"` — a label derived from the invalid
argument itself — while the same invocation on the current working directory
`/home/user` prints `"~"`; the entry point does not behave as if invoked on
the cwd. -/
theorem c9_invalid_path_not_cwd_cex :
    pane_title_label "/home/user" "/nonexistent/foo"
        ⟨.missing, none, none, false, none⟩ = .ok "foo" ∧
    pane_title_label "/home/user" "/home/user"
        ⟨.isDir, none, none, false, none⟩ = .ok "~" ∧
    (Except.ok "foo" : Except PyError String) ≠ .ok "~" ∧
    pane_title_label "/home/user" "/some/existing.file"
        ⟨.isFile, none, none, false, none⟩ = .error .notADirectoryError := by
  refine ⟨rfl, rfl, ?_, rfl⟩
  intro h
  have : ("foo" : String) = "~" := Except.ok.inj h
  exact absurd this (by decide)

/-- C9 (corrected): an argument that does not name an existing directory is
not replaced by the current working directory — it is used as-is.  A
nonexistent path makes the git query raise a caught `FileNotFoundError`, so
the invocation behaves exactly like one on an existing directory that is not
a git repository (label computed from the argument string); an argument
naming an existing non-directory file raises an uncaught
`NotADirectoryError` instead of falling back. -/
theorem c9_invalid_path_amended (home d : String) (env : TitleEnv) :
    (env.dirKind = PathKind.missing →
      pane_title_label home d env =
        pane_title_label home d
          ⟨PathKind.isDir, none, env.branch, env.gitIsFile, env.remoteUrl⟩) ∧
    (env.dirKind = PathKind.isFile →
      pane_title_label home d env = .error .notADirectoryError) := by
  obtain ⟨k, g, b, f, r⟩ := env
  constructor
  · intro h
    have hk : k = PathKind.missing := h
    subst hk
    rfl
  · intro h
    have hk : k = PathKind.isFile := h
    subst hk
    rfl

/-- C9 witness: the amended behavior at concrete paths. -/
theorem c9_invalid_path_witness :
    pane_title_label "/home/user" "/nonexistent/foo"
        ⟨.missing, none, none, false, none⟩ =
      pane_title_label "/home/user" "/nonexistent/foo"
        ⟨.isDir, none, none, false, none⟩ ∧
    pane_title_label "/home/user" "/some/existing.file"
        ⟨.isFile, none, none, false, none⟩ = .error .notADirectoryError :=
  ⟨(c9_invalid_path_amended "/home/user" "/nonexistent/foo"
      ⟨.missing, none, none, false, none⟩).1 rfl,
   (c9_invalid_path_amended "/home/user" "/some/existing.file"
      ⟨.isFile, none, none, false, none⟩).2 rfl⟩

/-- C10 counterexample: for the target directory `"/"` the write key is not
the directory's basename — `Path("/").name` is the empty string, and the
code substitutes `"root"` (`color_key = Path(target).name or "root"`), so
the cache is written at the key `"root"`, not at the basename `""`. -/
theorem c10_root_key_cex :
    get_peacock_color "/" (fun _ => "#123456") ⟨none, .absent, .absent⟩
      = .ok ("#123456", some (Json.obj [("root", Json.str "#123456")])) ∧
    pyPathName ((none : Option String).getD "/") = "" ∧
    ("root" : String) ≠ "" := by
  refine ⟨rfl, rfl, by decide⟩

/-- C10 (corrected): `peacock_utils.get_peacock_color` never shrinks the
cache.  Whenever it reads the cache as a dict `d`: (1) any write it performs
is exactly `d` extended or overwritten at the single color key — the target
directory's basename, with `"root"` substituted when that basename is empty
— and every other key keeps its previous binding; (2) when the settings file
yields a validated color it performs no write; (3) when the cache holds a
valid color under the color key it performs no write. -/
theorem c10_cache_frame_amended (directory : String) (gen : String → String)
    (env : Env) (d : List (String × Json))
    (hcache : load_color_cache env.cacheFile = Json.obj d) :
    (∀ c w, get_peacock_color directory gen env = .ok (c, some w) →
        c = gen (colorKeyOf (env.gitRoot.getD directory)) ∧
        w = Json.obj (dictInsert d (colorKeyOf (env.gitRoot.getD directory))
              (Json.str (gen (colorKeyOf (env.gitRoot.getD directory))))) ∧
        (∀ k2, k2 ≠ colorKeyOf (env.gitRoot.getD directory) →
            dictGet (dictInsert d (colorKeyOf (env.gitRoot.getD directory))
                (Json.str (gen (colorKeyOf (env.gitRoot.getD directory))))) k2
              = dictGet d k2)) ∧
    (∀ c, settingsColor env.settingsFile = .ok (some c) →
        get_peacock_color directory gen env = .ok (c, none)) ∧
    (settingsColor env.settingsFile = .ok none →
      ∀ j c, dictGet d (colorKeyOf (env.gitRoot.getD directory)) = some j →
        validate_hex_color j = some c →
        get_peacock_color directory gen env = .ok (c, none)) := by
  refine ⟨?_, ?_, ?_⟩
  · intro c w h
    unfold get_peacock_color at h
    cases hsc : settingsColor env.settingsFile with
    | error e => rw [hsc] at h; exact Except.noConfusion h
    | ok sc =>
        cases sc with
        | some c0 =>
            rw [hsc] at h
            have h2 : (Except.ok (c0, none) : Except PyError (String × Option Json))
                = .ok (c, some w) := h
            exact absurd (congrArg Prod.snd (Except.ok.inj h2)) (by simp)
        | none =>
            rw [hsc, hcache] at h
            by_cases hb : (d.any fun p =>
                p.1 = colorKeyOf (env.gitRoot.getD directory)) = true
            · simp only [cacheLookupTail, pyIn, hb] at h
              cases hj : dictGet d (colorKeyOf (env.gitRoot.getD directory)) with
              | none =>
                  simp only [pyIndex, hj] at h
                  exact Except.noConfusion h
              | some j =>
                  simp only [pyIndex, hj] at h
                  cases hv : validate_hex_color j with
                  | some c1 =>
                      rw [hv] at h
                      have h2 : (Except.ok (c1, none) : Except PyError (String × Option Json))
                          = .ok (c, some w) := h
                      exact absurd (congrArg Prod.snd (Except.ok.inj h2)) (by simp)
                  | none =>
                      rw [hv] at h
                      have h2 : generateAndStore gen
                          (colorKeyOf (env.gitRoot.getD directory)) (Json.obj d)
                          = .ok (c, some w) := h
                      rw [generateAndStore_obj] at h2
                      have h3 := Except.ok.inj h2
                      refine ⟨(congrArg Prod.fst h3).symm,
                        (Option.some.inj (congrArg Prod.snd h3)).symm, ?_⟩
                      intro k2 hk2
                      exact dictGet_dictInsert_ne d _ k2 _ hk2
            · have hb2 : (d.any fun p =>
                  p.1 = colorKeyOf (env.gitRoot.getD directory)) = false :=
                Bool.eq_false_iff.mpr hb
              simp only [cacheLookupTail, pyIn, hb2] at h
              have h2 : generateAndStore gen
                  (colorKeyOf (env.gitRoot.getD directory)) (Json.obj d)
                  = .ok (c, some w) := h
              rw [generateAndStore_obj] at h2
              have h3 := Except.ok.inj h2
              refine ⟨(congrArg Prod.fst h3).symm,
                (Option.some.inj (congrArg Prod.snd h3)).symm, ?_⟩
              intro k2 hk2
              exact dictGet_dictInsert_ne d _ k2 _ hk2
  · intro c h
    unfold get_peacock_color
    rw [h]
  · intro h j c hj hv
    have hb := any_of_dictGet_some d _ j hj
    unfold get_peacock_color
    rw [h, hcache]
    simp only [cacheLookupTail, pyIn, hb, pyIndex, hj, hv]

/-- C10 witness: the frame property at a concrete environment — the written
mapping preserves the unrelated key `"other"`. -/
theorem c10_cache_frame_witness :
    load_color_cache (FileState.regular (Json.obj [("other", Json.str "#111111")]) 30)
      = Json.obj [("other", Json.str "#111111")] ∧
    dictGet (dictInsert [("other", Json.str "#111111")] "myproj" (Json.str "#22cc44"))
        "other"
      = dictGet [("other", Json.str "#111111")] "other" := by
  refine ⟨rfl, ?_⟩
  have h := (c10_cache_frame_amended "/p/myproj" (fun _ => "#22cc44")
      ⟨none, FileState.absent, FileState.regular (Json.obj [("other", Json.str "#111111")]) 30⟩
      [("other", Json.str "#111111")] rfl).1 "#22cc44"
      (Json.obj (dictInsert [("other", Json.str "#111111")] "myproj" (Json.str "#22cc44")))
      rfl
  exact h.2.2 "other" (by decide)

end Peacock
